import Mathlib

/-!
# Verification of the document processing job queue of ask-across-docs

This file gives a shallow embedding of the job-queue core of the
repository: the `Document` row (src/backend/app/database.py), the lease
operations invoked by `src/backend/worker.py`, the janitor and the lease
recovery sweeper (worker.py), the administrative reset route
(src/backend/app/routes/admin.py), the legacy background processor
(src/backend/app/background_processor.py), and the chunking function
`DocumentProcessor.chunk_text`
(src/backend/app/services/document_processor.py).

Timestamps are modelled as natural numbers of seconds.  Text is modelled
as `List Char`.  The stored procedures `acquire_document_lease`,
`release_document_lease` and `find_expired_leases` are referenced by
worker.py but their SQL bodies are not part of the repository source; they
are modelled from the specification (sections 4.1 and 4.4), as noted on
each definition.
-/

namespace AskDocs

set_option maxRecDepth 100000

set_option maxHeartbeats 8000000

/-- The `status` column of a document row: queued, processing, completed,
failed (src/backend/app/database.py line 40). -/
inductive DocStatus
  | queued
  | processing
  | completed
  | failed
deriving DecidableEq, Repr

/-- The fields of a `Document` row that the job-queue core reads or
writes (src/backend/app/database.py lines 29-54). -/
structure Doc where
  status : DocStatus
  progress : Nat
  processing_attempts : Nat
  max_retries : Nat
  lease_expires_at : Option Nat
  processing_started_at : Option Nat
  processing_completed_at : Option Nat
  error_message : Option String
  last_error : Option String
  message_enqueued_at : Option Nat
  chunk_count : Nat
deriving DecidableEq, Repr

/-- Modelled from the spec: the stored procedure `acquire_document_lease`
executed by `DocumentWorker.acquire_lease` (worker.py lines 149-168) is
not in the source tree.  Spec section 4.1: atomically, fail (return
false) if status is not Queued or if `attempts >= max_attempts`;
otherwise increment `attempts`, set `status=Processing` and
`lease_expires_at = now + lease_duration`.  The worker passes the lease
duration in minutes (worker.py line 157 passes `5`). -/
def acquire_document_lease (now leaseMinutes : Nat) (d : Doc) : Bool × Doc :=
  if d.status = .queued ∧ d.processing_attempts < d.max_retries then
    (true,
      { d with
        status := .processing
        processing_attempts := d.processing_attempts + 1
        lease_expires_at := some (now + leaseMinutes * 60) })
  else
    (false, d)

/-- Python string slicing `m[:n]`: the first `n` characters of `m`. -/
def pyTake (n : Nat) (m : String) : String :=
  String.mk (m.data.take n)

/-- Modelled from the spec: the stored procedure `release_document_lease`
executed by `DocumentWorker.release_lease` (worker.py lines 170-191) is
not in the source tree.  Spec section 4.1: on success set
`status=Completed, progress=100, lease_expires_at=null, last_error=null`;
on failure, if `attempts < max_attempts` set `status=Queued,
lease_expires_at=null, progress=0, last_error=message`, else
`status=Failed, lease_expires_at=null, last_error=message`; in all cases
clear the notified flag (`message_enqueued_at`). -/
def release_document_lease (success : Bool) (errorMessage : Option String)
    (d : Doc) : Doc :=
  if success then
    { d with
      status := .completed
      progress := 100
      lease_expires_at := none
      last_error := none
      message_enqueued_at := none }
  else if d.processing_attempts < d.max_retries then
    { d with
      status := .queued
      lease_expires_at := none
      progress := 0
      last_error := errorMessage
      message_enqueued_at := none }
  else
    { d with
      status := .failed
      lease_expires_at := none
      last_error := errorMessage
      message_enqueued_at := none }

/-- `DocumentWorker.release_lease` (worker.py lines 170-191): runs the
stored procedure with the error message truncated to 1000 characters and
additionally clears `message_enqueued_at`. -/
def release_lease (success : Bool) (errorMessage : Option String)
    (d : Doc) : Doc :=
  { release_document_lease success (errorMessage.map (pyTake 1000)) d with
    message_enqueued_at := none }

/-- Lease-expiry test used by the janitor (worker.py line 93) and, per
spec section 4.4, by `find_expired_leases`:
`lease_expires_at` is non-null and in the past. -/
def leaseExpired (now : Nat) (d : Doc) : Bool :=
  match d.lease_expires_at with
  | some t => t < now
  | none => false

/-- Rule 2 of the janitor (worker.py line 97): `processing_started_at`
is non-null and more than ten minutes (600 seconds) in the past. -/
def startedTooLongAgo (now : Nat) (d : Doc) : Bool :=
  match d.processing_started_at with
  | some t => t + 600 < now
  | none => false

/-- `DocumentWorker.janitor_clean_stuck_leases` (worker.py lines 72-114)
restricted to a single document: a document with `status="processing"`
whose lease has expired (Rule 1) or which started processing more than
ten minutes ago (Rule 2) is set back to `status="queued"` with
`lease_expires_at=None`, `message_enqueued_at=None` and
`processing_attempts = min(processing_attempts + 1, max_retries)`;
any other document is untouched. -/
def janitor_clean_stuck_leases (now : Nat) (d : Doc) : Doc :=
  if d.status = .processing ∧ (leaseExpired now d || startedTooLongAgo now d) then
    { d with
      status := .queued
      lease_expires_at := none
      message_enqueued_at := none
      processing_attempts := min (d.processing_attempts + 1) d.max_retries }
  else
    d

/-- `DocumentWorker.recover_expired_leases` (worker.py lines 116-140)
restricted to a single document.  The selection (`status=Processing and
lease_expires_at < now`) is done by the stored procedure
`find_expired_leases`, which is not in the source tree and is modelled
from spec section 4.4; each selected document is released through
`release_lease(success=False, error_message="Lease expired - worker may
have crashed")` (worker.py line 136). -/
def recover_expired_leases (now : Nat) (d : Doc) : Doc :=
  if d.status = .processing ∧ leaseExpired now d then
    release_lease false (some "Lease expired - worker may have crashed") d
  else
    d

/-- `reset_stuck_documents` (src/backend/app/routes/admin.py lines
16-76) restricted to a single document: a document with
`status="processing"` whose `processing_started_at` is null or older
than `max_age_minutes` is set to `status="queued"`, `progress=0`,
`error_message=None`, `processing_started_at=None`.  No other field is
written (in particular `lease_expires_at` and `processing_attempts` are
left as they are). -/
def reset_stuck_documents (now maxAgeMinutes : Nat) (d : Doc) : Doc :=
  let tooOld :=
    match d.processing_started_at with
    | none => true
    | some t => t + maxAgeMinutes * 60 < now
  if d.status = .processing ∧ tooOld = true then
    { d with
      status := .queued
      progress := 0
      error_message := none
      processing_started_at := none }
  else
    d

/-- First committed step of the background processor's per-document loop
(src/backend/app/background_processor.py lines 83-86): set
`status="processing"`, `progress=10`, `processing_started_at=now` and
commit.  `lease_expires_at` is not written. -/
def bp_mark_processing (now : Nat) (d : Doc) : Doc :=
  { d with
    status := .processing
    progress := 10
    processing_started_at := some now }

/-! ## Chunking (`DocumentProcessor.chunk_text`,
src/backend/app/services/document_processor.py lines 254-318)

The worker constructs `DocumentProcessor` with
`settings.chunk_size = 1000` and `settings.chunk_overlap = 200`
(src/backend/app/config.py lines 46-47); the model keeps the two as
parameters.  The Python loop variable `start` (and the window end) can
become negative through `start = end - self.chunk_overlap`, so both are
modelled as `Int`, and the Python semantics of `str.rfind(sub, start,
end)` and of slicing `text[start:end]` with possibly negative or
out-of-range bounds is reproduced: a negative index counts from the end
of the string and the result is clamped to `[0, len]`. -/

/-- Python `str.strip()` whitespace test (space, tab, newline, carriage
return, vertical tab, form feed). -/
def pyIsSpace (c : Char) : Bool :=
  c = ' ' || c = '\t' || c = '\n' || c = '\r' ||
  c = Char.ofNat 11 || c = Char.ofNat 12

/-- Python `str.strip()`: remove whitespace from both ends. -/
def pyStrip (t : List Char) : List Char :=
  ((t.dropWhile pyIsSpace).reverse.dropWhile pyIsSpace).reverse

/-- Normalize a Python slice index against a string of length `len`:
negative indices count from the end, and the result is clamped to
`[0, len]`. -/
def pySliceIdx (len : Nat) (i : Int) : Nat :=
  if i < 0 then ((len : Int) + i).toNat else min i.toNat len

/-- Python slicing `t[s:e]` (empty when the normalized start is not
before the normalized end). -/
def pySlice (t : List Char) (s e : Int) : List Char :=
  (t.take (pySliceIdx t.length e)).drop (pySliceIdx t.length s)

/-- Helper for `pyRfind`: scan the suffixes of `t` left to right (`i`
is the index of the current suffix's head, `best` the last admissible
occurrence seen so far) and return the highest index `j` with `lo ≤ j`,
`j + sub.length ≤ hi` and `sub` occurring at `j`. -/
def pyRfindAux (sub : List Char) (lo hi : Nat) :
    List Char → Nat → Option Nat → Option Nat
  | [], _, best => best
  | c :: rest, i, best =>
    if lo ≤ i ∧ i + sub.length ≤ hi ∧ sub.isPrefixOf (c :: rest) then
      pyRfindAux sub lo hi rest (i + 1) (some i)
    else
      pyRfindAux sub lo hi rest (i + 1) best

/-- Python `t.rfind(sub, s, e)`: highest index of an occurrence of `sub`
lying entirely inside the normalized range, or `none` (Python `-1`). -/
def pyRfind (t sub : List Char) (s e : Int) : Option Nat :=
  pyRfindAux sub (pySliceIdx t.length s) (pySliceIdx t.length e) t 0 none

/-- The delimiter search of `chunk_text` (document_processor.py lines
278-284): for each delimiter in `['. ', '! ', '? ', '\n\n', '\n']` in
order, if `rfind` locates it in `[start, e0)`, the window end becomes
the position just after that last occurrence; otherwise the end stays
`e0`. -/
def adjust_end (t : List Char) (start e0 : Int) : Int :=
  match pyRfind t ['.', ' '] start e0 with
  | some i => (i : Int) + 2
  | none =>
    match pyRfind t ['!', ' '] start e0 with
    | some i => (i : Int) + 2
    | none =>
      match pyRfind t ['?', ' '] start e0 with
      | some i => (i : Int) + 2
      | none =>
        match pyRfind t ['\n', '\n'] start e0 with
        | some i => (i : Int) + 2
        | none =>
          match pyRfind t ['\n'] start e0 with
          | some i => (i : Int) + 1
          | none => e0

/-- One entry of `pages_info` as produced by `extract_with_metadata`
(document_processor.py): a page number with the character span the page
occupies in the full text. -/
structure PageSpan where
  page_num : Nat
  start_char : Nat
  end_char : Nat
deriving DecidableEq, Repr

/-- One chunk as built by `chunk_text` (document_processor.py lines
289-312).  The constant `metadata` dictionary merged into every chunk is
omitted: it does not influence the loop or any field below. -/
structure Chunk where
  text : List Char
  chunk_index : Nat
  start_char : Int
  end_char : Int
  page_numbers : List Nat
deriving DecidableEq, Repr

/-- One iteration of the `while start < len(text)` body of `chunk_text`
(document_processor.py lines 273-316): compute the window end (with the
sentence-boundary adjustment when `start + chunk_size < len(text)`),
strip the window, emit a chunk when the stripped window is non-empty
(tagging it with the pages whose spans overlap `[start, end)`), and step
`start` to `end - chunk_overlap` (or to `end` when `end >= len(text)`).
Returns the next `start`, the next `chunk_index` and the emitted chunk,
if any. -/
def chunk_step (cs ov : Nat) (t : List Char) (pages : List PageSpan)
    (start : Int) (idx : Nat) : Int × Nat × Option Chunk :=
  let e0 : Int := start + (cs : Int)
  let e : Int := if e0 < (t.length : Int) then adjust_end t start e0 else e0
  let ch := pyStrip (pySlice t start e)
  let start' : Int := if e < (t.length : Int) then e - (ov : Int) else e
  if ch = [] then
    (start', idx, none)
  else
    (start', idx + 1,
      some
        { text := ch
          chunk_index := idx
          start_char := start
          end_char := e
          page_numbers :=
            (pages.filter
              (fun p => !(e ≤ (p.start_char : Int) || (p.end_char : Int) ≤ start))).map
              (fun p => p.page_num) })

/-- The `while` loop of `chunk_text`, with explicit fuel: `none` means
the loop has not finished within `fuel` iterations. -/
def chunk_loop (cs ov : Nat) (t : List Char) (pages : List PageSpan) :
    Nat → Int → Nat → List Chunk → Option (List Chunk)
  | 0, _, _, _ => none
  | fuel + 1, start, idx, acc =>
    if start < (t.length : Int) then
      match chunk_step cs ov t pages start idx with
      | (start', idx', c?) =>
        chunk_loop cs ov t pages fuel start' idx' (acc ++ c?.toList)
    else
      some acc

/-- `DocumentProcessor.chunk_text` (document_processor.py lines
254-318): empty result on whitespace-only input, otherwise the chunking
loop from `start = 0`.  `none` means the loop did not finish within
`fuel` iterations (for a terminating input, any sufficiently large fuel
gives `some`). -/
def chunk_text (cs ov fuel : Nat) (t : List Char) (pages : List PageSpan) :
    Option (List Chunk) :=
  if pyStrip t = [] then some [] else chunk_loop cs ov t pages fuel 0 0 []

/-- Failure handler of the background processor
(src/backend/app/background_processor.py lines 179-189): on any
exception, set `status="failed"`, `error_message=str(e)[:500]`,
`progress=0` and commit. -/
def bp_fail (err : String) (d : Doc) : Doc :=
  { d with
    status := .failed
    error_message := some (pyTake 500 err)
    progress := 0 }

/-! ## The worker pipeline (`DocumentWorker.process_document`,
worker.py lines 193-368) and the background processor's per-document
loop (background_processor.py lines 79-189)

The external pipeline collaborators (blob storage, extraction service,
embedding service, vector index) are black boxes (spec section 6); one
attempt's interaction with them is an oracle `PipelineRun` recording
whether each stage call returns, times out, or raises, and what text the
extraction stage returns.  Chunking runs in-process and is taken from
`chunk_text` above. -/

/-- Outcome of one external stage call: normal return, `asyncio`
timeout, or an exception with message `m`. -/
inductive StageOutcome
  | ok
  | timeout
  | err (m : String)
deriving DecidableEq, Repr

/-- Oracle for one processing attempt: outcome of each external stage,
and the text and page spans the extraction stage returns when it
succeeds. -/
structure PipelineRun where
  download : StageOutcome
  extract : StageOutcome
  text : List Char
  pages : List PageSpan
  embed : StageOutcome
  index : StageOutcome
deriving DecidableEq, Repr

/-- Result of one attempt: `done success doc writes` when the attempt
returns (with the final document row and the list of `progress` values
committed along the way, in order), or `hung doc writes` when the
in-process chunking loop never finishes. -/
inductive WorkerResult
  | done (success : Bool) (doc : Doc) (writes : List Nat)
  | hung (doc : Doc) (writes : List Nat)
deriving DecidableEq, Repr

/-- The document row carried in a `WorkerResult`. -/
def WorkerResult.doc : WorkerResult → Doc
  | .done _ d _ => d
  | .hung d _ => d

/-- The committed `progress` values carried in a `WorkerResult`. -/
def WorkerResult.writes : WorkerResult → List Nat
  | .done _ _ w => w
  | .hung _ w => w

/-- Whether a `WorkerResult` is a completed, successful attempt. -/
def WorkerResult.success : WorkerResult → Bool
  | .done s _ _ => s
  | .hung _ _ => false

/-- `DocumentWorker.process_document` (worker.py lines 193-368).
Control flow of the source: acquire the lease (returning immediately,
with no write, when the acquire returns false — worker.py lines
217-223); commit `progress=10`; download (60s timeout); commit
`progress=25`; extract (600s timeout; the empty-extraction check at
lines 278-279 raises `ValueError("No text extracted from document")`);
chunk via `chunk_text`; commit `progress=70`; embed (180s timeout);
index (60s timeout); commit `chunk_count=len(chunks)` and
`progress=100`; release the lease with success.  Any stage timeout or
exception after the lease was acquired is caught at lines 341-360 and
released through `release_lease(success=False, error_message=...)`; the
`str(e)[:500]` truncation of worker.py line 355 is applied, and the
elapsed-time figures interpolated into the timeout messages are
omitted. -/
def process_document (now fuel cs ov : Nat) (r : PipelineRun) (d0 : Doc) :
    WorkerResult :=
  let a := acquire_document_lease now 5 d0
  if a.1 = false then
    .done false a.2 []
  else
    let d := { a.2 with progress := 10 }
    let w := [10]
    match r.download with
    | .timeout =>
      .done false (release_lease false (some "Timeout during processing: ") d) w
    | .err m => .done false (release_lease false (some (pyTake 500 m)) d) w
    | .ok =>
      let d := { d with progress := 25 }
      let w := w ++ [25]
      match r.extract with
      | .timeout =>
        .done false
          (release_lease false (some "Text extraction timed out") d) w
      | .err m => .done false (release_lease false (some (pyTake 500 m)) d) w
      | .ok =>
        if pyStrip r.text = [] then
          .done false
            (release_lease false (some "No text extracted from document") d) w
        else
          match chunk_text cs ov fuel r.text r.pages with
          | none => .hung d w
          | some chunks =>
            let d := { d with progress := 70 }
            let w := w ++ [70]
            match r.embed with
            | .timeout =>
              .done false
                (release_lease false (some "Timeout during processing: ") d) w
            | .err m =>
              .done false (release_lease false (some (pyTake 500 m)) d) w
            | .ok =>
              match r.index with
              | .timeout =>
                .done false
                  (release_lease false (some "Timeout during processing: ") d) w
              | .err m =>
                .done false (release_lease false (some (pyTake 500 m)) d) w
              | .ok =>
                let d := { d with chunk_count := chunks.length, progress := 100 }
                let w := w ++ [100]
                .done true (release_lease true none d) w

/-- The background processor's per-document body
(background_processor.py lines 79-189).  Control flow of the source:
commit `status="processing"`, `progress=10`,
`processing_started_at=now`; download (timeout raises `ValueError`);
commit `progress=25`; extract (timeout raises `ValueError`; empty
extraction raises `ValueError("No text extracted from document - file
may be empty or corrupted")`); commit `progress=50`; chunk; commit
`progress=70`; embed; commit `progress=90`; index; then commit
`status="completed"`, `chunk_count`, `progress=100`,
`error_message=None`, `processing_completed_at=now`.  Any exception is
caught at lines 179-189 and handled by `bp_fail` (terminal failure). -/
def bp_process_document (now fuel cs ov : Nat) (r : PipelineRun) (d0 : Doc) :
    WorkerResult :=
  let d := bp_mark_processing now d0
  let w := [10]
  match r.download with
  | .timeout =>
    .done false
      (bp_fail "File download timeout - file may be too large or storage is slow" d) w
  | .err m => .done false (bp_fail m d) w
  | .ok =>
    let d := { d with progress := 25 }
    let w := w ++ [25]
    match r.extract with
    | .timeout =>
      .done false
        (bp_fail "Text extraction timeout - document may be too complex or corrupted" d) w
    | .err m => .done false (bp_fail m d) w
    | .ok =>
      if pyStrip r.text = [] then
        .done false
          (bp_fail "No text extracted from document - file may be empty or corrupted" d) w
      else
        let d := { d with progress := 50 }
        let w := w ++ [50]
        match chunk_text cs ov fuel r.text r.pages with
        | none => .hung d w
        | some chunks =>
          let d := { d with progress := 70 }
          let w := w ++ [70]
          match r.embed with
          | .timeout =>
            .done false (bp_fail "Embedding generation timeout" d) w
          | .err m => .done false (bp_fail m d) w
          | .ok =>
            let d := { d with progress := 90 }
            let w := w ++ [90]
            match r.index with
            | .timeout =>
              .done false (bp_fail "Vector store indexing timeout" d) w
            | .err m => .done false (bp_fail m d) w
            | .ok =>
              let d :=
                { d with
                  status := .completed
                  chunk_count := chunks.length
                  progress := 100
                  error_message := none
                  processing_completed_at := some now }
              .done true d (w ++ [100])

/-! ## Concrete fixtures used by witnesses and counterexamples -/

/-- A freshly created document row: the column defaults of
src/backend/app/database.py lines 40-54 (`status="queued"`,
`progress=0`, `processing_attempts=0`, `max_retries=3`, everything else
null/zero). -/
def docQueued : Doc :=
  { status := .queued
    progress := 0
    processing_attempts := 0
    max_retries := 3
    lease_expires_at := none
    processing_started_at := none
    processing_completed_at := none
    error_message := none
    last_error := none
    message_enqueued_at := none
    chunk_count := 0 }

/-- A document mid-processing with a live lease. -/
def docLeased : Doc :=
  { docQueued with
    status := .processing
    progress := 25
    processing_attempts := 1
    lease_expires_at := some 100 }

/-- A document in processing whose lease (expiring at second 0) has
expired and whose attempts budget is exhausted (3 of 3). -/
def docExhausted : Doc :=
  { docQueued with
    status := .processing
    progress := 55
    processing_attempts := 3
    lease_expires_at := some 0 }

/-- Another expired-lease document with its budget exhausted, one
pipeline failure already recorded. -/
def docExhaustedSweep : Doc :=
  { docQueued with
    status := .processing
    progress := 70
    processing_attempts := 3
    lease_expires_at := some 5
    last_error := some "Timeout during processing: " }

/-- The text of the divergence counterexample for `chunk_text`:
198 `'a'`s, then `". "`, then 801 more `'a'`s (1001 characters).  With
`chunk_size = 1000` and `chunk_overlap = 200` the first window end is
adjusted to the delimiter at 198+2 = 200, and the next start is
`200 - 200 = 0` again. -/
def textLoop : List Char :=
  List.replicate 198 'a' ++ '.' :: ' ' :: List.replicate 801 'a'

/-- A non-whitespace text that `chunk_text` (with the configured
`chunk_size = 1000`, `chunk_overlap = 200`) splits into zero chunks:
`"\n\n"`, then 500 `'b'`s, then 600 spaces (1102 characters).  The first
window ends at the `"\n\n"` delimiter (end 2), the next start is
`2 - 200 = -198`, which Python's negative-index semantics turns into an
empty window `[904, 802)`, and the final window `[602, 1102)` is all
spaces, so no window ever yields a non-empty stripped chunk. -/
def textZero : List Char :=
  '\n' :: '\n' :: (List.replicate 500 'b' ++ List.replicate 600 ' ')

/-- A pipeline attempt in which every external stage succeeds and
extraction returns the one-character text `"x"`. -/
def runAllOk : PipelineRun :=
  { download := .ok
    extract := .ok
    text := ['x']
    pages := []
    embed := .ok
    index := .ok }

/-- A pipeline attempt in which every external stage succeeds and
extraction returns `textZero`. -/
def runZeroChunk : PipelineRun :=
  { runAllOk with text := textZero }

/-- A pipeline attempt whose download stage times out. -/
def runDownTimeout : PipelineRun :=
  { runAllOk with download := .timeout }

/-- A pipeline attempt whose extraction stage raises. -/
def runExtractErr : PipelineRun :=
  { runAllOk with extract := .err "Failed to extract PDF: broken" }

/-- A pipeline attempt in which extraction succeeds but returns only
whitespace. -/
def runEmptyText : PipelineRun :=
  { runAllOk with text := [' ', '\n'] }

/-- The invariant of spec section 3: `lease_expires_at` is non-null iff
`status = Processing`. -/
def statusLeaseInv (d : Doc) : Prop :=
  d.lease_expires_at ≠ none ↔ d.status = .processing

instance (d : Doc) : Decidable (statusLeaseInv d) := by
  unfold statusLeaseInv
  infer_instance

/-! ## Helper lemmas -/

/-- A failed acquire leaves the document row unchanged. -/
theorem acquire_fail_snd (now k : Nat) (d : Doc)
    (h : (acquire_document_lease now k d).1 = false) :
    (acquire_document_lease now k d).2 = d := by
  by_cases hc : d.status = .queued ∧ d.processing_attempts < d.max_retries
  · simp [acquire_document_lease, hc] at h
  · simp [acquire_document_lease, hc]

/-- Field values produced by a failure release. -/
theorem release_false_fields (e : Option String) (d : Doc) :
    (release_lease false e d).processing_attempts = d.processing_attempts ∧
    (release_lease false e d).lease_expires_at = none ∧
    (release_lease false e d).status
      = (if d.processing_attempts < d.max_retries then DocStatus.queued
         else DocStatus.failed) ∧
    (d.processing_attempts < d.max_retries →
      (release_lease false e d).progress = 0) := by
  by_cases hc : d.processing_attempts < d.max_retries
  · simp [release_lease, release_document_lease, hc]
  · simp [release_lease, release_document_lease, hc]

/-! ## C1: mutual exclusion of concurrent lease acquisition -/

/-- C1: two `acquire` calls on the same job, linearized in either order
by the Job Store (the stored procedure is one atomic transaction), never
both return true: a successful acquire moves the job out of `queued`
status, so the other call's conditional update fails. -/
theorem acquire_mutual_exclusion (d : Doc) (n1 k1 n2 k2 : Nat) :
    ((acquire_document_lease n1 k1 d).1 &&
      (acquire_document_lease n2 k2 (acquire_document_lease n1 k1 d).2).1)
      = false := by
  by_cases hc : d.status = .queued ∧ d.processing_attempts < d.max_retries
  · simp [acquire_document_lease, hc]
  · simp [acquire_document_lease, hc]

/-! ## C5: a failed acquire leaves the job untouched -/

/-- C5: when the lease acquire returns false, `process_document`
(worker.py lines 217-223) returns immediately: the attempt reports
failure-to-the-delivery-mechanism, the document row is exactly the input
row, and no progress value and no error is written. -/
theorem acquire_false_no_write (now fuel cs ov : Nat) (r : PipelineRun)
    (d : Doc) (h : (acquire_document_lease now 5 d).1 = false) :
    process_document now fuel cs ov r d = .done false d [] := by
  have h2 := acquire_fail_snd now 5 d h
  simp [process_document, h, h2]

/-- Witness for C5 at a concrete job another worker holds: `docLeased`
is in processing, so the acquire returns false and the worker writes
nothing. -/
theorem acquire_false_no_write_witness :
    process_document 7 5 1000 200 runAllOk docLeased = .done false docLeased [] :=
  acquire_false_no_write 7 5 1000 200 runAllOk docLeased (by decide)

/-! ## C7: the administrative reset-stuck operation -/

/-- Counterexample to C7: `reset_stuck_documents` (admin.py lines 54-64)
does not write `lease_expires_at`.  Resetting the stuck processing
document `docLeased` (lease expiring at second 100) returns it to
`queued` with the lease still set, while the claim requires
`lease_expires_at` to become null. -/
theorem admin_reset_keeps_lease :
    (reset_stuck_documents 5000 10 docLeased).status = .queued ∧
    (reset_stuck_documents 5000 10 docLeased).lease_expires_at = some 100 := by
  decide

/-- C7 as amended: the reset, applied to a processing document whose
`processing_started_at` is null or older than the threshold, sets
`status="queued"`, `progress=0`, `error_message=null`,
`processing_started_at=null`, leaves `processing_attempts` unchanged,
and also leaves `lease_expires_at` unchanged (it is not reset to
null). -/
theorem admin_reset_fields (now maxAge : Nat) (d : Doc)
    (hs : d.status = .processing)
    (ht : d.processing_started_at = none ∨
      ∃ t, d.processing_started_at = some t ∧ t + maxAge * 60 < now) :
    (reset_stuck_documents now maxAge d).status = .queued ∧
    (reset_stuck_documents now maxAge d).progress = 0 ∧
    (reset_stuck_documents now maxAge d).error_message = none ∧
    (reset_stuck_documents now maxAge d).processing_started_at = none ∧
    (reset_stuck_documents now maxAge d).processing_attempts
      = d.processing_attempts ∧
    (reset_stuck_documents now maxAge d).lease_expires_at
      = d.lease_expires_at := by
  rcases ht with ht | ⟨t, ht, hlt⟩
  · simp [reset_stuck_documents, hs, ht]
  · simp [reset_stuck_documents, hs, ht, hlt]

/-- Witness for C7 (amended) at the concrete stuck document
`docLeased`. -/
theorem admin_reset_fields_witness :
    (reset_stuck_documents 5000 10 docLeased).status = .queued ∧
    (reset_stuck_documents 5000 10 docLeased).progress = 0 ∧
    (reset_stuck_documents 5000 10 docLeased).error_message = none ∧
    (reset_stuck_documents 5000 10 docLeased).processing_started_at = none ∧
    (reset_stuck_documents 5000 10 docLeased).processing_attempts
      = docLeased.processing_attempts ∧
    (reset_stuck_documents 5000 10 docLeased).lease_expires_at
      = docLeased.lease_expires_at :=
  admin_reset_fields 5000 10 docLeased (by decide) (Or.inl (by decide))

/-! ## C4: lease non-null iff status processing -/

/-- Counterexample to C4: the background processor's first committed
step (background_processor.py lines 83-86) sets `status="processing"`
without setting any lease, so from the freshly created `docQueued` it
reaches a state with `status=Processing` and `lease_expires_at=null`,
falsifying both the if-and-only-if invariant and the claim that every
operation setting Processing sets a non-null lease. -/
theorem bp_processing_without_lease :
    (bp_mark_processing 0 docQueued).status = .processing ∧
    (bp_mark_processing 0 docQueued).lease_expires_at = none := by
  decide

/-- C4 as amended: the `lease_expires_at ≠ null ↔ status = Processing`
invariant is preserved by the lease-manager operations (acquire and
release), by the janitor, and by the lease-recovery sweep; it is not
maintained by the background processor (which marks Processing with a
null lease) nor by the administrative reset (which returns a document to
Queued without clearing its lease). -/
theorem lease_iff_processing_preserved (d : Doc) (hinv : statusLeaseInv d) :
    (∀ now k, statusLeaseInv (acquire_document_lease now k d).2) ∧
    (∀ s e, statusLeaseInv (release_lease s e d)) ∧
    (∀ now, statusLeaseInv (janitor_clean_stuck_leases now d)) ∧
    (∀ now, statusLeaseInv (recover_expired_leases now d)) := by
  refine ⟨fun now k => ?_, fun s e => ?_, fun now => ?_, fun now => ?_⟩
  · by_cases hc : d.status = .queued ∧ d.processing_attempts < d.max_retries
    · simp [acquire_document_lease, hc, statusLeaseInv]
    · simpa [acquire_document_lease, hc] using hinv
  · rcases s with _ | _
    · by_cases hb : d.processing_attempts < d.max_retries
      · simp [release_lease, release_document_lease, hb, statusLeaseInv]
      · simp [release_lease, release_document_lease, hb, statusLeaseInv]
    · simp [release_lease, release_document_lease, statusLeaseInv]
  · by_cases hc : d.status = .processing ∧
        (leaseExpired now d = true ∨ startedTooLongAgo now d = true)
    · simp [janitor_clean_stuck_leases, hc, statusLeaseInv]
    · simp only [janitor_clean_stuck_leases, Bool.or_eq_true]
      rw [if_neg hc]
      exact hinv
  · by_cases hc : d.status = .processing ∧ leaseExpired now d = true
    · by_cases hb : d.processing_attempts < d.max_retries
      · simp [recover_expired_leases, hc, release_lease,
          release_document_lease, hb, statusLeaseInv]
      · simp [recover_expired_leases, hc, release_lease,
          release_document_lease, hb, statusLeaseInv]
    · simpa [recover_expired_leases, hc] using hinv

/-- Witness for C4 (amended) at the concrete leased document
`docLeased`, which satisfies the invariant. -/
theorem lease_iff_processing_preserved_witness :
    (∀ now k, statusLeaseInv (acquire_document_lease now k docLeased).2) ∧
    (∀ s e, statusLeaseInv (release_lease s e docLeased)) ∧
    (∀ now, statusLeaseInv (janitor_clean_stuck_leases now docLeased)) ∧
    (∀ now, statusLeaseInv (recover_expired_leases now docLeased)) :=
  lease_iff_processing_preserved docLeased (by decide)

/-! ## C2: attempts monotonicity and the exhausted-budget terminal state -/

/-- Counterexample to C2: the janitor (worker.py lines 101-107) returns
an exhausted job to Queued.  `docExhausted` has
`processing_attempts = max_retries = 3` and an expired lease, yet one
janitor run sets its status back to `queued` rather than the terminal
`failed` the claim requires for a job whose budget is exhausted. -/
theorem janitor_requeues_exhausted_job :
    docExhausted.max_retries ≤ docExhausted.processing_attempts ∧
    (janitor_clean_stuck_leases 1 docExhausted).status = .queued ∧
    (janitor_clean_stuck_leases 1 docExhausted).status ≠ .failed := by
  decide

/-- C2 as amended: `processing_attempts` never decreases under the lease
acquire/release operations, the janitor (on any row respecting
`attempts ≤ max_retries`), the sweeper, or the administrative reset; a
job with `attempts ≥ max_retries` is never again leased (acquire returns
false) and a failure release marks it terminal Failed — but the janitor
may still return such an exhausted job to Queued (capping the counter at
`max_retries`) instead of failing it. -/
theorem attempts_monotone_budget :
    (∀ now k d, d.processing_attempts
      ≤ ((acquire_document_lease now k d).2).processing_attempts) ∧
    (∀ s e d, (release_lease s e d).processing_attempts
      = d.processing_attempts) ∧
    (∀ now d, d.processing_attempts ≤ d.max_retries →
      d.processing_attempts
        ≤ (janitor_clean_stuck_leases now d).processing_attempts) ∧
    (∀ now d, d.processing_attempts
      ≤ (recover_expired_leases now d).processing_attempts) ∧
    (∀ now k d, (reset_stuck_documents now k d).processing_attempts
      = d.processing_attempts) ∧
    (∀ now k d, d.max_retries ≤ d.processing_attempts →
      (acquire_document_lease now k d).1 = false) ∧
    (∀ e d, d.max_retries ≤ d.processing_attempts →
      (release_lease false e d).status = .failed) := by
  have hrel : ∀ (s : Bool) (e : Option String) (d : Doc),
      (release_lease s e d).processing_attempts = d.processing_attempts := by
    intro s e d
    rcases s with _ | _
    · by_cases hb : d.processing_attempts < d.max_retries
      · simp [release_lease, release_document_lease, hb]
      · simp [release_lease, release_document_lease, hb]
    · simp [release_lease, release_document_lease]
  refine ⟨?_, hrel, ?_, ?_, ?_, ?_, ?_⟩
  · intro now k d
    by_cases hc : d.status = .queued ∧ d.processing_attempts < d.max_retries
    · simp [acquire_document_lease, hc]
    · simp [acquire_document_lease, hc]
  · intro now d hle
    by_cases hc : d.status = .processing ∧
        (leaseExpired now d = true ∨ startedTooLongAgo now d = true)
    · simp only [janitor_clean_stuck_leases, Bool.or_eq_true]
      rw [if_pos hc]
      simp
      omega
    · simp only [janitor_clean_stuck_leases, Bool.or_eq_true]
      rw [if_neg hc]
  · intro now d
    by_cases hc : d.status = .processing ∧ leaseExpired now d = true
    · simp only [recover_expired_leases]
      rw [if_pos hc, hrel]
    · simp only [recover_expired_leases]
      rw [if_neg hc]
  · intro now k d
    simp only [reset_stuck_documents]
    split
    · rfl
    · rfl
  · intro now k d hge
    simp only [acquire_document_lease]
    rw [if_neg]
    rintro ⟨_, hlt⟩
    omega
  · intro e d hge
    simp [release_lease, release_document_lease, Nat.not_lt.mpr hge]

/-- Witness for C2 (amended), instantiated at the concrete documents
`docQueued` (budget respected) and `docExhausted` (budget
exhausted). -/
theorem attempts_monotone_budget_witness :
    docQueued.processing_attempts
      ≤ (janitor_clean_stuck_leases 1 docQueued).processing_attempts ∧
    (acquire_document_lease 0 5 docExhausted).1 = false ∧
    (release_lease false (some "boom") docExhausted).status = .failed := by
  have h := attempts_monotone_budget
  exact ⟨h.2.2.1 1 docQueued (by decide),
    h.2.2.2.2.2.1 0 5 docExhausted (by decide),
    h.2.2.2.2.2.2 (some "boom") docExhausted (by decide)⟩

/-! ## C3: what one recovery sweep does to an expired lease -/

/-- Counterexample to C3: the janitor sweep (worker.py lines 72-114,
cited by the claim) never produces the terminal Failed state.  On
`docExhaustedSweep` — in processing with an expired lease and
`processing_attempts = max_retries = 3`, for which the claim requires
the sweep to yield terminal Failed — one janitor run yields `queued`. -/
theorem janitor_sweep_never_fails_job :
    docExhaustedSweep.status = .processing ∧
    leaseExpired 10 docExhaustedSweep = true ∧
    docExhaustedSweep.max_retries ≤ docExhaustedSweep.processing_attempts ∧
    (janitor_clean_stuck_leases 10 docExhaustedSweep).status = .queued := by
  decide

/-- C3 as amended: `recover_expired_leases` releases an expired
processing document through the failure release, which applies the
budget (back to Queued with `progress=0` while `attempts < max_retries`,
terminal Failed otherwise, the lease cleared either way, without
changing `attempts` — the attempt was already counted at acquire time);
the janitor instead always requeues an expired processing document,
incrementing `attempts` capped at `max_retries` and never producing
Failed.  Documents not in processing are left unchanged by both
sweeps. -/
theorem sweeper_release_semantics :
    (∀ now d, d.status = .processing → leaseExpired now d = true →
      recover_expired_leases now d
        = release_lease false (some "Lease expired - worker may have crashed") d) ∧
    (∀ now d, d.status ≠ .processing → recover_expired_leases now d = d) ∧
    (∀ e d, d.processing_attempts < d.max_retries →
      (release_lease false e d).status = .queued ∧
      (release_lease false e d).progress = 0 ∧
      (release_lease false e d).lease_expires_at = none ∧
      (release_lease false e d).processing_attempts = d.processing_attempts) ∧
    (∀ e d, d.max_retries ≤ d.processing_attempts →
      (release_lease false e d).status = .failed ∧
      (release_lease false e d).lease_expires_at = none ∧
      (release_lease false e d).processing_attempts = d.processing_attempts) ∧
    (∀ now d, d.status = .processing → leaseExpired now d = true →
      (janitor_clean_stuck_leases now d).status = .queued ∧
      (janitor_clean_stuck_leases now d).lease_expires_at = none ∧
      (janitor_clean_stuck_leases now d).processing_attempts
        = min (d.processing_attempts + 1) d.max_retries) ∧
    (∀ now d, d.status ≠ .processing → janitor_clean_stuck_leases now d = d) := by
  refine ⟨?_, ?_, ?_, ?_, ?_, ?_⟩
  · intro now d hs hl
    simp [recover_expired_leases, hs, hl]
  · intro now d hs
    simp [recover_expired_leases, hs]
  · intro e d hb
    simp [release_lease, release_document_lease, hb]
  · intro e d hb
    simp [release_lease, release_document_lease, Nat.not_lt.mpr hb]
  · intro now d hs hl
    simp only [janitor_clean_stuck_leases, Bool.or_eq_true]
    rw [if_pos ⟨hs, Or.inl hl⟩]
    simp
  · intro now d hs
    simp only [janitor_clean_stuck_leases, Bool.or_eq_true]
    rw [if_neg]
    rintro ⟨hp, _⟩
    exact hs hp

/-- Witness for C3 (amended) at the concrete expired documents
`docExhaustedSweep` (budget exhausted: sweep fails it, janitor requeues
it) and `docLeased` after its lease expires. -/
theorem sweeper_release_semantics_witness :
    recover_expired_leases 10 docExhaustedSweep
      = release_lease false (some "Lease expired - worker may have crashed")
          docExhaustedSweep ∧
    (release_lease false (some "e") docExhaustedSweep).status = .failed ∧
    (release_lease false (some "e") docLeased).status = .queued ∧
    (janitor_clean_stuck_leases 10 docExhaustedSweep).status = .queued ∧
    recover_expired_leases 10 docQueued = docQueued := by
  have h := sweeper_release_semantics
  exact ⟨h.1 10 docExhaustedSweep (by decide) (by decide),
    (h.2.2.2.1 (some "e") docExhaustedSweep (by decide)).1,
    (h.2.2.1 (some "e") docLeased (by decide)).1,
    (h.2.2.2.2.1 10 docExhaustedSweep (by decide) (by decide)).1,
    h.2.1 10 docQueued (by decide)⟩

/-! ## C6: stage failures and the retry budget -/

/-- Counterexample to C6: in the background-processor path
(background_processor.py lines 179-189) a download timeout on the
freshly created `docQueued` — a first attempt, with the whole retry
budget remaining — leaves the job terminally Failed instead of
returning it to Queued. -/
theorem bp_first_failure_terminal :
    docQueued.processing_attempts = 0 ∧
    0 < docQueued.max_retries ∧
    (bp_process_document 0 5 1000 200 runDownTimeout docQueued).doc.status
      = .failed := by
  decide

/-- C6 as amended: in the worker path every stage failure after a
successful acquire goes through the failure release, so the job returns
to Queued (with `progress=0`) while the incremented attempts count is
below `max_retries` and becomes terminal Failed exactly when the budget
is exhausted; in the background-processor path any stage failure
immediately marks the job terminally Failed with `progress=0`,
regardless of the attempts count. -/
theorem stage_failure_budget_paths :
    (∀ now fuel cs ov r d dfin w,
      d.status = .queued → d.processing_attempts < d.max_retries →
      process_document now fuel cs ov r d = .done false dfin w →
      dfin.processing_attempts = d.processing_attempts + 1 ∧
      dfin.lease_expires_at = none ∧
      dfin.status = (if d.processing_attempts + 1 < d.max_retries
        then DocStatus.queued else DocStatus.failed) ∧
      (d.processing_attempts + 1 < d.max_retries → dfin.progress = 0)) ∧
    (∀ now fuel cs ov r d dfin w,
      bp_process_document now fuel cs ov r d = .done false dfin w →
      dfin.status = .failed ∧ dfin.progress = 0) := by
  constructor
  · intro now fuel cs ov r d dfin w hs hb heq
    obtain ⟨dl, ex, tx, pg, em, ix⟩ := r
    have hrel : ∀ (e : Option String) (dm : Doc),
        dm.processing_attempts = d.processing_attempts + 1 →
        dm.max_retries = d.max_retries →
        release_lease false e dm = dfin →
        dfin.processing_attempts = d.processing_attempts + 1 ∧
        dfin.lease_expires_at = none ∧
        dfin.status = (if d.processing_attempts + 1 < d.max_retries
          then DocStatus.queued else DocStatus.failed) ∧
        (d.processing_attempts + 1 < d.max_retries → dfin.progress = 0) := by
      intro e dm ha hm hd
      subst hd
      have h := release_false_fields e dm
      rw [ha, hm] at h
      exact h
    simp only [process_document, acquire_document_lease, hs, hb] at heq
    rw [if_neg (fun h => Bool.noConfusion h)] at heq
    cases dl with
    | timeout =>
      simp at heq
      first
      | (refine hrel _ _ ?_ ?_ heq.1 <;> rfl)
      | (refine hrel _ _ ?_ ?_ heq.1.symm <;> rfl)
    | err m =>
      simp at heq
      first
      | (refine hrel _ _ ?_ ?_ heq.1 <;> rfl)
      | (refine hrel _ _ ?_ ?_ heq.1.symm <;> rfl)
    | ok =>
      cases ex with
      | timeout =>
        simp at heq
        first
        | (refine hrel _ _ ?_ ?_ heq.1 <;> rfl)
        | (refine hrel _ _ ?_ ?_ heq.1.symm <;> rfl)
      | err m =>
        simp at heq
        first
        | (refine hrel _ _ ?_ ?_ heq.1 <;> rfl)
        | (refine hrel _ _ ?_ ?_ heq.1.symm <;> rfl)
      | ok =>
        by_cases hst : pyStrip tx = []
        · simp only [hst, if_pos rfl] at heq
          simp at heq
          first
          | (refine hrel _ _ ?_ ?_ heq.1 <;> rfl)
          | (refine hrel _ _ ?_ ?_ heq.1.symm <;> rfl)
        · rw [if_neg hst] at heq
          cases hch : chunk_text cs ov fuel tx pg with
          | none =>
            rw [hch] at heq
            simp at heq
          | some chunks =>
            rw [hch] at heq
            cases em with
            | timeout =>
              simp at heq
              first
              | (refine hrel _ _ ?_ ?_ heq.1 <;> rfl)
              | (refine hrel _ _ ?_ ?_ heq.1.symm <;> rfl)
            | err m =>
              simp at heq
              first
              | (refine hrel _ _ ?_ ?_ heq.1 <;> rfl)
              | (refine hrel _ _ ?_ ?_ heq.1.symm <;> rfl)
            | ok =>
              cases ix with
              | timeout =>
                simp at heq
                first
                | (refine hrel _ _ ?_ ?_ heq.1 <;> rfl)
                | (refine hrel _ _ ?_ ?_ heq.1.symm <;> rfl)
              | err m =>
                simp at heq
                first
                | (refine hrel _ _ ?_ ?_ heq.1 <;> rfl)
                | (refine hrel _ _ ?_ ?_ heq.1.symm <;> rfl)
              | ok =>
                simp at heq
  · intro now fuel cs ov r d dfin w heq
    obtain ⟨dl, ex, tx, pg, em, ix⟩ := r
    have hbp : ∀ (m : String) (dm : Doc),
        bp_fail m dm = dfin →
        dfin.status = DocStatus.failed ∧ dfin.progress = 0 := by
      intro m dm hd
      subst hd
      exact ⟨rfl, rfl⟩
    simp only [bp_process_document] at heq
    cases dl with
    | timeout =>
      simp at heq
      first
      | exact hbp _ _ heq.1
      | exact hbp _ _ heq.1.symm
    | err m =>
      simp at heq
      first
      | exact hbp _ _ heq.1
      | exact hbp _ _ heq.1.symm
    | ok =>
      cases ex with
      | timeout =>
        simp at heq
        first
        | exact hbp _ _ heq.1
        | exact hbp _ _ heq.1.symm
      | err m =>
        simp at heq
        first
        | exact hbp _ _ heq.1
        | exact hbp _ _ heq.1.symm
      | ok =>
        by_cases hst : pyStrip tx = []
        · simp only [hst, if_pos rfl] at heq
          simp at heq
          first
          | exact hbp _ _ heq.1
          | exact hbp _ _ heq.1.symm
        · rw [if_neg hst] at heq
          cases hch : chunk_text cs ov fuel tx pg with
          | none =>
            rw [hch] at heq
            simp at heq
          | some chunks =>
            rw [hch] at heq
            cases em with
            | timeout =>
              simp at heq
              first
              | exact hbp _ _ heq.1
              | exact hbp _ _ heq.1.symm
            | err m =>
              simp at heq
              first
              | exact hbp _ _ heq.1
              | exact hbp _ _ heq.1.symm
            | ok =>
              cases ix with
              | timeout =>
                simp at heq
                first
                | exact hbp _ _ heq.1
                | exact hbp _ _ heq.1.symm
              | err m =>
                simp at heq
                first
                | exact hbp _ _ heq.1
                | exact hbp _ _ heq.1.symm
              | ok =>
                simp at heq

/-- Witness for C6 (amended): a download timeout on the fresh
`docQueued` (attempts go 0 to 1, budget 3) requeues it through the
worker path, and terminally fails it through the background-processor
path. -/
theorem stage_failure_budget_paths_witness :
    ((process_document 0 5 1000 200 runDownTimeout docQueued).doc.status
        = .queued ∧
      (process_document 0 5 1000 200 runDownTimeout docQueued).doc.progress
        = 0) ∧
    (bp_process_document 0 5 1000 200 runDownTimeout docQueued).doc.status
      = .failed := by
  have h := stage_failure_budget_paths
  have h1 := h.1 0 5 1000 200 runDownTimeout docQueued
    ((process_document 0 5 1000 200 runDownTimeout docQueued).doc)
    ((process_document 0 5 1000 200 runDownTimeout docQueued).writes)
    (by decide) (by decide) (by decide)
  have h2 := h.2 0 5 1000 200 runDownTimeout docQueued
    ((bp_process_document 0 5 1000 200 runDownTimeout docQueued).doc)
    ((bp_process_document 0 5 1000 200 runDownTimeout docQueued).writes)
    (by decide)
  exact ⟨⟨by rw [h1.2.2.1]; decide, h1.2.2.2 (by decide)⟩, h2.1⟩

/-! ## C8: the persisted progress sequence of one attempt -/

/-- Counterexample to C8: a fully successful worker attempt on the
one-character text `"x"` persists the progress values
`[10, 25, 70, 100]` — worker.py (lines 230-337) has no `progress=50`
and no `progress=90` commit — not the `[10, 25, 50, 70, 90, 100]` the
claim states. -/
theorem worker_progress_sequence_differs :
    (process_document 0 5 1000 200 runAllOk docQueued).success = true ∧
    (process_document 0 5 1000 200 runAllOk docQueued).writes
      = [10, 25, 70, 100] ∧
    [10, 25, 70, 100] ≠ [10, 25, 50, 70, 90, 100] := by
  decide

/-- C8 as amended: within one attempt the persisted progress values are
non-decreasing; a successful worker attempt persists `[10, 25, 70, 100]`
(the 50 and 90 steps are only committed by the background processor,
whose successful runs persist `[10, 25, 50, 70, 90, 100]`), and the
requeue performed by a failure release resets progress to 0. -/
theorem progress_write_sequences :
    (∀ now fuel cs ov r d,
      (∀ dfin w, process_document now fuel cs ov r d = .done true dfin w →
        w = [10, 25, 70, 100]) ∧
      List.Sorted (· ≤ ·) (process_document now fuel cs ov r d).writes) ∧
    (∀ now fuel cs ov r d,
      (∀ dfin w, bp_process_document now fuel cs ov r d = .done true dfin w →
        w = [10, 25, 50, 70, 90, 100]) ∧
      List.Sorted (· ≤ ·) (bp_process_document now fuel cs ov r d).writes) ∧
    (∀ e d, (release_lease false e d).status = .queued →
      (release_lease false e d).progress = 0) := by
  refine ⟨?_, ?_, ?_⟩
  · intro now fuel cs ov r d
    obtain ⟨dl, ex, tx, pg, em, ix⟩ := r
    by_cases hc : d.status = .queued ∧ d.processing_attempts < d.max_retries
    · obtain ⟨hs, hb⟩ := hc
      simp only [process_document, acquire_document_lease, hs, hb]
      rw [if_neg (fun h => Bool.noConfusion h)]
      cases dl with
      | timeout =>
        exact ⟨fun dfin w heq => by simp at heq, by simp only [WorkerResult.writes]; decide⟩
      | err m =>
        exact ⟨fun dfin w heq => by simp at heq, by simp only [WorkerResult.writes]; decide⟩
      | ok =>
        cases ex with
        | timeout =>
          exact ⟨fun dfin w heq => by simp at heq, by simp only [WorkerResult.writes]; decide⟩
        | err m =>
          exact ⟨fun dfin w heq => by simp at heq, by simp only [WorkerResult.writes]; decide⟩
        | ok =>
          by_cases hst : pyStrip tx = []
          · rw [if_pos hst]
            exact ⟨fun dfin w heq => by simp at heq, by simp only [WorkerResult.writes]; decide⟩
          · rw [if_neg hst]
            cases hch : chunk_text cs ov fuel tx pg with
            | none =>
              exact ⟨fun dfin w heq => by simp at heq, by simp only [WorkerResult.writes]; decide⟩
            | some chunks =>
              cases em with
              | timeout =>
                exact ⟨fun dfin w heq => by simp at heq, by simp only [WorkerResult.writes]; decide⟩
              | err m =>
                exact ⟨fun dfin w heq => by simp at heq, by simp only [WorkerResult.writes]; decide⟩
              | ok =>
                cases ix with
                | timeout =>
                  exact ⟨fun dfin w heq => by simp at heq, by simp only [WorkerResult.writes]; decide⟩
                | err m =>
                  exact ⟨fun dfin w heq => by simp at heq, by simp only [WorkerResult.writes]; decide⟩
                | ok =>
                  refine ⟨fun dfin w heq => ?_, by simp only [WorkerResult.writes]; decide⟩
                  cases heq
                  rfl
    · refine ⟨fun dfin w heq => ?_, ?_⟩
      · simp [process_document, acquire_document_lease, hc] at heq
      · simp [process_document, acquire_document_lease, hc, WorkerResult.writes]
  · intro now fuel cs ov r d
    obtain ⟨dl, ex, tx, pg, em, ix⟩ := r
    simp only [bp_process_document]
    cases dl with
    | timeout =>
      exact ⟨fun dfin w heq => by simp at heq, by simp only [WorkerResult.writes]; decide⟩
    | err m =>
      exact ⟨fun dfin w heq => by simp at heq, by simp only [WorkerResult.writes]; decide⟩
    | ok =>
      cases ex with
      | timeout =>
        exact ⟨fun dfin w heq => by simp at heq, by simp only [WorkerResult.writes]; decide⟩
      | err m =>
        exact ⟨fun dfin w heq => by simp at heq, by simp only [WorkerResult.writes]; decide⟩
      | ok =>
        by_cases hst : pyStrip tx = []
        · rw [if_pos hst]
          exact ⟨fun dfin w heq => by simp at heq, by simp only [WorkerResult.writes]; decide⟩
        · rw [if_neg hst]
          cases hch : chunk_text cs ov fuel tx pg with
          | none =>
            exact ⟨fun dfin w heq => by simp at heq, by simp only [WorkerResult.writes]; decide⟩
          | some chunks =>
            cases em with
            | timeout =>
              exact ⟨fun dfin w heq => by simp at heq, by simp only [WorkerResult.writes]; decide⟩
            | err m =>
              exact ⟨fun dfin w heq => by simp at heq, by simp only [WorkerResult.writes]; decide⟩
            | ok =>
              cases ix with
              | timeout =>
                exact ⟨fun dfin w heq => by simp at heq, by simp only [WorkerResult.writes]; decide⟩
              | err m =>
                exact ⟨fun dfin w heq => by simp at heq, by simp only [WorkerResult.writes]; decide⟩
              | ok =>
                refine ⟨fun dfin w heq => ?_, by simp only [WorkerResult.writes]; decide⟩
                cases heq
                rfl
  · intro e d hq
    by_cases hb : d.processing_attempts < d.max_retries
    · simp [release_lease, release_document_lease, hb]
    · simp [release_lease, release_document_lease, hb] at hq

/-- Witness for C8 (amended): the successful runs of both paths on the
text `"x"`, and a failure release within budget. -/
theorem progress_write_sequences_witness :
    (process_document 0 5 1000 200 runAllOk docQueued).writes
      = [10, 25, 70, 100] ∧
    (bp_process_document 0 5 1000 200 runAllOk docQueued).writes
      = [10, 25, 50, 70, 90, 100] ∧
    (release_lease false (some "e") docLeased).progress = 0 := by
  have h := progress_write_sequences
  refine ⟨(h.1 0 5 1000 200 runAllOk docQueued).1
      (process_document 0 5 1000 200 runAllOk docQueued).doc
      (process_document 0 5 1000 200 runAllOk docQueued).writes
      (by decide),
    (h.2.1 0 5 1000 200 runAllOk docQueued).1
      (bp_process_document 0 5 1000 200 runAllOk docQueued).doc
      (bp_process_document 0 5 1000 200 runAllOk docQueued).writes
      (by decide),
    h.2.2 (some "e") docLeased (by decide)⟩

/-! ## C9: success validation of extraction and chunking -/

/-- Counterexample to C9: worker.py checks only that the extracted text
is non-whitespace (line 278); it never validates the chunk count.  On
the non-whitespace extraction `textZero`, `chunk_text` returns zero
chunks, and the worker completes the job successfully with
`chunk_count = 0`. -/
theorem worker_success_zero_chunks :
    pyStrip runZeroChunk.text ≠ [] ∧
    (process_document 0 9 1000 200 runZeroChunk docQueued).success = true ∧
    (process_document 0 9 1000 200 runZeroChunk docQueued).doc.chunk_count
      = 0 := by
  decide

/-- The `last_error` recorded by a failure release is the truncated
message, on both budget branches. -/
theorem release_false_last_error (e : Option String) (d : Doc) :
    (release_lease false e d).last_error = e.map (pyTake 1000) := by
  by_cases hb : d.processing_attempts < d.max_retries
  · simp [release_lease, release_document_lease, hb]
  · simp [release_lease, release_document_lease, hb]

/-- C9 as amended: a successful worker attempt implies the extracted
text was non-whitespace, and a whitespace-only extraction makes the
attempt fail with the defined error `"No text extracted from
document"`; but nothing validates the chunk count, so a successful
attempt can finish with zero chunks. -/
theorem empty_extraction_defined_failure :
    (∀ now fuel cs ov r d dfin w,
      process_document now fuel cs ov r d = .done true dfin w →
      pyStrip r.text ≠ []) ∧
    (∀ now fuel cs ov (r : PipelineRun) d,
      (acquire_document_lease now 5 d).1 = true →
      r.download = .ok → r.extract = .ok → pyStrip r.text = [] →
      (process_document now fuel cs ov r d).success = false ∧
      (process_document now fuel cs ov r d).doc.last_error
        = some "No text extracted from document") := by
  constructor
  · intro now fuel cs ov r d dfin w heq hst
    obtain ⟨dl, ex, tx, pg, em, ix⟩ := r
    simp only at hst
    by_cases hc : d.status = .queued ∧ d.processing_attempts < d.max_retries
    · obtain ⟨hs, hb⟩ := hc
      simp only [process_document, acquire_document_lease, hs, hb] at heq
      rw [if_neg (fun h => Bool.noConfusion h)] at heq
      cases dl with
      | timeout => simp at heq
      | err m => simp at heq
      | ok =>
        cases ex with
        | timeout => simp at heq
        | err m => simp at heq
        | ok =>
          rw [if_pos hst] at heq
          simp at heq
    · simp [process_document, acquire_document_lease, hc] at heq
  · intro now fuel cs ov r d hacq hdl hex hst
    by_cases hc : d.status = .queued ∧ d.processing_attempts < d.max_retries
    · obtain ⟨hs, hb⟩ := hc
      simp only [process_document, acquire_document_lease, hs, hb]
      rw [if_neg (fun h => Bool.noConfusion h)]
      rw [hdl, hex, if_pos hst]
      refine ⟨rfl, ?_⟩
      simp only [WorkerResult.doc]
      rw [release_false_last_error]
      decide
    · exfalso
      simp [acquire_document_lease, hc] at hacq

/-- Witness for C9 (amended): the successful run on the text `"x"` had
a non-whitespace extraction, and the whitespace-only run `runEmptyText`
fails with the defined error, on the fresh `docQueued`. -/
theorem empty_extraction_defined_failure_witness :
    pyStrip runAllOk.text ≠ [] ∧
    ((process_document 0 5 1000 200 runEmptyText docQueued).success = false ∧
      (process_document 0 5 1000 200 runEmptyText docQueued).doc.last_error
        = some "No text extracted from document") := by
  have h := empty_extraction_defined_failure
  exact ⟨h.1 0 5 1000 200 runAllOk docQueued
      (process_document 0 5 1000 200 runAllOk docQueued).doc
      (process_document 0 5 1000 200 runAllOk docQueued).writes
      (by decide),
    h.2 0 5 1000 200 runEmptyText docQueued (by decide) (by decide)
      (by decide) (by decide)⟩

/-! ## C10: termination of the chunking loop -/

/-- One iteration of the chunking loop on `textLoop` from `start = 0`
(with the worker's configuration `chunk_size = 1000`,
`chunk_overlap = 200`): the window end is adjusted to position 200 (just
past the `". "` at 198), a chunk is emitted, and the next start is
`200 - 200 = 0` — the loop does not advance. -/
theorem chunk_step_textLoop (idx : Nat) :
    chunk_step 1000 200 textLoop [] 0 idx
      = (0, idx + 1, some
          { text := List.replicate 198 'a' ++ ['.']
            chunk_index := idx
            start_char := 0
            end_char := 200
            page_numbers := [] }) := by
  rfl

/-- The chunking loop on `textLoop` never leaves `start = 0`, so it runs
out of any amount of fuel. -/
theorem chunk_loop_textLoop :
    ∀ fuel idx acc, chunk_loop 1000 200 textLoop [] fuel 0 idx acc = none := by
  intro fuel
  induction fuel with
  | zero => intro idx acc; rfl
  | succ n ih =>
    intro idx acc
    rw [chunk_loop, if_pos (by decide : (0 : Int) < (textLoop.length : Int)),
      chunk_step_textLoop]
    exact ih (idx + 1) _

/-- C10: `chunk_text` is not total.  With the configured
`chunk_size = 1000` and `chunk_overlap = 200`, on the 1001-character
input `textLoop` the loop start stays at 0 forever (each iteration emits
the same chunk again), so the loop never terminates: every fuel bound is
exhausted. -/
theorem chunk_text_diverges :
    (∀ idx, (chunk_step 1000 200 textLoop [] 0 idx).1 = 0) ∧
    (∀ fuel, chunk_text 1000 200 fuel textLoop [] = none) := by
  constructor
  · intro idx
    rw [chunk_step_textLoop]
  · intro fuel
    rw [chunk_text, if_neg (by decide : ¬pyStrip textLoop = [])]
    exact chunk_loop_textLoop fuel 0 []

end AskDocs
